import Mathlib

/-!
Verification of the Performance Analytics & Statistical Computation Engine of
the StreamingRecommendation repository, shallowly embedded from
`backend/app/utils/math_utils.py` and
`backend/app/services/campaign_service.py`.

Python floats are modelled as exact rationals (`ℚ`) where the source computes
only field operations, and as reals (`ℝ`) where it takes square roots
(`calculate_statistical_significance`).  Python dicts are modelled as
structures; a dict key that is present only on some return paths becomes an
`Option` field.  `float('inf')` is modelled by a dedicated constructor.
-/

namespace StreamRec

/-- `statistics.mean`: sum of the list divided by its length.  The Python
function raises on an empty list; every call site below guards non-emptiness,
so the value at `[]` (which is `0/0 = 0` here) is never relied upon. -/
def mean {α : Type} [Field α] (l : List α) : α :=
  l.sum / (l.length : α)

/-- `calculate_variance` from `math_utils.py`: sample variance with the
`len(data) < 2` guard returning 0. -/
def calculate_variance {α : Type} [Field α] (data : List α) : α :=
  if data.length < 2 then 0
  else ((data.map (fun x => (x - mean data) ^ 2)).sum) / ((data.length : α) - 1)

/-- `calculate_trend` from `math_utils.py`: ordinary least-squares slope of
the values against the index positions `0, 1, …, n-1`, with the `len < 2`
guard and the zero-denominator guard.  `data[i]` is modelled by
`data.getD i 0`; every index produced by `List.range data.length` is in
bounds, so the default is never used. -/
def calculate_trend {α : Type} [Field α] [DecidableEq α] (data : List α) : α :=
  if data.length < 2 then 0
  else
    let n := data.length
    let x_mean : α := mean ((List.range n).map (fun i => (Nat.cast i : α)))
    let y_mean := mean data
    let numerator :=
      ((List.range n).map
        (fun i => ((Nat.cast i : α) - x_mean) * (data.getD i 0 - y_mean))).sum
    let denominator :=
      ((List.range n).map (fun i => ((Nat.cast i : α) - x_mean) ^ 2)).sum
    if denominator ≠ 0 then numerator / denominator else 0

/-- Python's `round` ties-to-even on an exact rational: round to the nearest
integer, resolving exact halves towards the even neighbour. -/
def roundHalfEven (q : ℚ) : ℤ :=
  let f := ⌊q⌋
  if q - f < 1 / 2 then f
  else if q - f > 1 / 2 then f + 1
  else if f % 2 = 0 then f else f + 1

/-- Python's `round(x, ndigits)` on an exact rational. -/
def pyRound (ndigits : ℕ) (q : ℚ) : ℚ :=
  (roundHalfEven (q * 10 ^ ndigits) : ℚ) / 10 ^ ndigits

/-- `calculate_risk_score` from `math_utils.py`. -/
def calculate_risk_score (ctr cvr roas variance : ℚ) : ℚ :=
  let ctr_risk := max 0 (1 - ctr / 5)
  let cvr_risk := max 0 (1 - cvr / 10)
  let roas_risk := max 0 (1 - roas / 5)
  let variance_risk := min 1 (variance / 1000000)
  (ctr_risk * (3 / 10) + cvr_risk * (3 / 10) + roas_risk * (3 / 10)
    + variance_risk * (1 / 10)) * 100

/-- `project_monthly_performance` from `math_utils.py`: daily average of the
revenue over the elapsed days, scaled to 30 days; 0 when `days_elapsed == 0`. -/
def project_monthly_performance (current_revenue : ℚ) (days_elapsed : ℕ) : ℚ :=
  if days_elapsed = 0 then 0
  else current_revenue / (days_elapsed : ℚ) * 30

/-- One entry of a `daily_metrics` list as consumed by
`calculate_campaign_performance` (keys `"impressions"`, `"spend"`) and by
`calculate_projected_performance` (keys `"revenue"`, `"spend"`). -/
structure DailyMetric where
  impressions : ℚ
  spend : ℚ
  revenue : ℚ
deriving DecidableEq, Repr

/-- The `performance_data` dict handed to `calculate_campaign_performance`:
the five totals (`.get(key, 0)` defaults are folded into the field values)
and the `daily_metrics` list. -/
structure PerformanceData where
  total_impressions : ℚ
  total_clicks : ℚ
  total_conversions : ℚ
  total_spend : ℚ
  total_revenue : ℚ
  daily_metrics : List DailyMetric
deriving DecidableEq, Repr

/-- The `calculated_metrics` dict produced by `calculate_campaign_performance`. -/
structure CalculatedMetrics where
  ctr_percent : ℚ
  cvr_percent : ℚ
  cpc : ℚ
  cpm : ℚ
  roas : ℚ
  cost_per_acquisition : ℚ
  profit : ℚ
  profit_margin_percent : ℚ
  impression_variance : ℚ
  spend_variance : ℚ
  impression_trend : ℚ
  spend_trend : ℚ
  risk_score : ℚ
  projected_monthly_revenue : ℚ
deriving DecidableEq, Repr

/-- `calculate_campaign_performance` from `math_utils.py`.  The Python
function mutates `performance_data` by inserting the `"calculated_metrics"`
entry and returns the whole dict; the untouched entries pass through
unchanged, so the embedding returns just the inserted `calculated_metrics`. -/
def calculate_campaign_performance (pd : PerformanceData) : CalculatedMetrics :=
  let impressions := pd.total_impressions
  let clicks := pd.total_clicks
  let conversions := pd.total_conversions
  let spend := pd.total_spend
  let revenue := pd.total_revenue
  let ctr := if impressions > 0 then clicks / impressions * 100 else 0
  let cvr := if clicks > 0 then conversions / clicks * 100 else 0
  let cpc := if clicks > 0 then spend / clicks else 0
  let cpm := if impressions > 0 then spend / impressions * 1000 else 0
  let roas := if spend > 0 then revenue / spend else 0
  let cost_per_acquisition := if conversions > 0 then spend / conversions else 0
  let profit := revenue - spend
  let profit_margin := if revenue > 0 then profit / revenue * 100 else 0
  let daily_impressions := pd.daily_metrics.map (fun d => d.impressions)
  let daily_spend := pd.daily_metrics.map (fun d => d.spend)
  let impression_variance :=
    if pd.daily_metrics ≠ [] then calculate_variance daily_impressions else 0
  let spend_variance :=
    if pd.daily_metrics ≠ [] then calculate_variance daily_spend else 0
  let impression_trend :=
    if pd.daily_metrics ≠ [] then calculate_trend daily_impressions else 0
  let spend_trend :=
    if pd.daily_metrics ≠ [] then calculate_trend daily_spend else 0
  let risk_score := calculate_risk_score ctr cvr roas impression_variance
  let projected_monthly_revenue :=
    project_monthly_performance revenue pd.daily_metrics.length
  { ctr_percent := pyRound 2 ctr
    cvr_percent := pyRound 2 cvr
    cpc := pyRound 2 cpc
    cpm := pyRound 2 cpm
    roas := pyRound 2 roas
    cost_per_acquisition := pyRound 2 cost_per_acquisition
    profit := pyRound 2 profit
    profit_margin_percent := pyRound 2 profit_margin
    impression_variance := pyRound 2 impression_variance
    spend_variance := pyRound 2 spend_variance
    impression_trend := pyRound 4 impression_trend
    spend_trend := pyRound 4 spend_trend
    risk_score := pyRound 2 risk_score
    projected_monthly_revenue := pyRound 2 projected_monthly_revenue }

/-- Value of the Python float returned by `calculate_roi`: either the literal
`float('inf')` or an ordinary (finite) number. -/
inductive RoiResult where
  | infinity : RoiResult
  | finite : ℚ → RoiResult
deriving DecidableEq, Repr

/-- `calculate_roi` from `math_utils.py`: `((revenue - cost) / cost) * 100`,
except that a zero cost yields `float('inf')` when `revenue > 0` and `0`
otherwise. -/
def calculate_roi (revenue cost : ℚ) : RoiResult :=
  if cost = 0 then (if revenue > 0 then .infinity else .finite 0)
  else .finite ((revenue - cost) / cost * 100)

/-- The dict returned by `calculate_projected_performance`.  The two return
paths of the source produce dicts with different key sets (`"confidence"`
appears only in the empty-input return, `"confidence_percent"` and the two
trend keys only in the main return), so those keys are `Option` fields:
`none` means the key is absent from the returned dict. -/
structure ProjectedPerformance where
  projected_revenue : ℚ
  projected_spend : ℚ
  confidence : Option ℚ
  confidence_percent : Option ℚ
  revenue_trend : Option ℚ
  spend_trend : Option ℚ
deriving DecidableEq, Repr

/-- `calculate_projected_performance` from `math_utils.py`: linear projection
of the last revenue/spend along the regression trend, clamped at 0, with a
coefficient-of-variation style confidence clamped to `[0, 100]`.
`projection_days` is a Python `int`, hence `ℤ`. -/
def calculate_projected_performance
    (historical_data : List DailyMetric) (projection_days : ℤ) :
    ProjectedPerformance :=
  if historical_data = [] then
    { projected_revenue := 0, projected_spend := 0, confidence := some 0,
      confidence_percent := none, revenue_trend := none, spend_trend := none }
  else
    let revenues := historical_data.map (fun d => d.revenue)
    let spends := historical_data.map (fun d => d.spend)
    let revenue_trend := calculate_trend revenues
    let spend_trend := calculate_trend spends
    let current_revenue := revenues.getLastD 0
    let current_spend := spends.getLastD 0
    let projected_revenue := current_revenue + revenue_trend * (projection_days : ℚ)
    let projected_spend := current_spend + spend_trend * (projection_days : ℚ)
    let revenue_variance := calculate_variance revenues
    let confidence := max 0 (100 - revenue_variance / max (mean revenues) 1 * 100)
    { projected_revenue := max 0 projected_revenue
      projected_spend := max 0 projected_spend
      confidence := none
      confidence_percent := some (min 100 confidence)
      revenue_trend := some revenue_trend
      spend_trend := some spend_trend }

/-- The dict returned by `calculate_statistical_significance`.  The
`"effect_size"` key is present only in the full-computation return, so it is
an `Option` field (`none` = key absent).  `significant` is the truth value of
the Python comparison `p_value < 0.05`. -/
structure SignificanceResult where
  p_value : ℝ
  significant : Prop
  confidence_interval : ℝ × ℝ
  effect_size : Option ℝ

/-- `statistics.stdev`: sample standard deviation with the `n - 1`
denominator.  The Python function raises for lists of fewer than two
elements; every call site below guards with `len(...) > 1`. -/
noncomputable def stdev (l : List ℝ) : ℝ :=
  Real.sqrt (((l.map (fun x => (x - mean l) ^ 2)).sum) / ((l.length : ℝ) - 1))

/-- The local `se` of `calculate_statistical_significance`:
`math.sqrt(std_control**2 / len(control_group) + std_test**2 / len(test_group))`
with each `std` guarded by `len(...) > 1`. -/
noncomputable def standard_error (control_group test_group : List ℝ) : ℝ :=
  let std_control := if control_group.length > 1 then stdev control_group else 0
  let std_test := if test_group.length > 1 then stdev test_group else 0
  Real.sqrt (std_control ^ 2 / (control_group.length : ℝ)
    + std_test ^ 2 / (test_group.length : ℝ))

/-- `calculate_statistical_significance` from `math_utils.py`: the simplified
two-sample t-test approximation, with its two degenerate early returns
(insufficient data, zero standard error) that omit the `"effect_size"` key. -/
noncomputable def calculate_statistical_significance
    (control_group test_group : List ℝ) : SignificanceResult :=
  if control_group.length < 2 ∨ test_group.length < 2 then
    { p_value := 1, significant := False, confidence_interval := (0, 0),
      effect_size := none }
  else
    let mean_control := mean control_group
    let mean_test := mean test_group
    let se := standard_error control_group test_group
    if se = 0 then
      { p_value := 1, significant := False, confidence_interval := (0, 0),
        effect_size := none }
    else
      let t_stat := (mean_test - mean_control) / se
      let p_value := 2 * (1 - |t_stat| /
        (|t_stat| + Real.sqrt ((control_group.length : ℝ) + (test_group.length : ℝ) - 2)))
      let margin_of_error := 1.96 * se
      { p_value := p_value
        significant := p_value < 0.05
        confidence_interval :=
          ((mean_test - mean_control) - margin_of_error,
           (mean_test - mean_control) + margin_of_error)
        effect_size := some (mean_test - mean_control) }

/-- One `AdMetrics` row as read by `get_campaign_performance` in
`campaign_service.py` (the fields the aggregation touches). -/
structure AdMetricsRow where
  date : String
  impressions : ℚ
  clicks : ℚ
  conversions : ℚ
  spend : ℚ
  revenue : ℚ
deriving DecidableEq, Repr

/-- One entry of the `daily_metrics` list built by
`get_campaign_performance` (the `date` is the row's `date.isoformat()`,
modelled as the abstract date token itself). -/
structure DailyRecord where
  date : String
  impressions : ℚ
  clicks : ℚ
  conversions : ℚ
  spend : ℚ
  revenue : ℚ
deriving DecidableEq, Repr

/-- The dict returned by `get_campaign_performance`. -/
structure CampaignPerformance where
  campaign_id : String
  campaign_name : String
  total_impressions : ℚ
  total_clicks : ℚ
  total_conversions : ℚ
  total_spend : ℚ
  total_revenue : ℚ
  daily_metrics : List DailyRecord
deriving DecidableEq, Repr

/-- The aggregation step of `CampaignService.get_campaign_performance`:
given the campaign's identity and the (already date-filtered) list of
`AdMetrics` rows, sum each numeric field and rebuild the per-day breakdown.
The database query and the campaign-existence check stay outside the
embedding. -/
def get_campaign_performance
    (campaign_id campaign_name : String) (metrics : List AdMetricsRow) :
    CampaignPerformance :=
  { campaign_id := campaign_id
    campaign_name := campaign_name
    total_impressions := (metrics.map (fun m => m.impressions)).sum
    total_clicks := (metrics.map (fun m => m.clicks)).sum
    total_conversions := (metrics.map (fun m => m.conversions)).sum
    total_spend := (metrics.map (fun m => m.spend)).sum
    total_revenue := (metrics.map (fun m => m.revenue)).sum
    daily_metrics := metrics.map (fun m =>
      { date := m.date, impressions := m.impressions, clicks := m.clicks,
        conversions := m.conversions, spend := m.spend, revenue := m.revenue }) }

/-- The keys of the dict literal returned by
`CampaignService.get_campaign_performance`, transcribed from the `return`
statement in `campaign_service.py`. -/
def get_campaign_performance_keys : List String :=
  ["campaign_id", "campaign_name", "total_impressions", "total_clicks",
   "total_conversions", "total_spend", "total_revenue", "daily_metrics"]

/-- Modelled from the spec: the §4.5 ForecastProjector formula
(`projected_value = current_value + trend_slope * projection_days`, floored
at 0) applied to the revenue series of the daily metrics, as claim C9 reads
`projected_monthly_revenue`.  This definition follows the spec's words, to be
compared with the source's `project_monthly_performance`. -/
def spec_monthly_revenue_forecast (pd : PerformanceData) (projection_days : ℤ) : ℚ :=
  let revenues := pd.daily_metrics.map (fun d => d.revenue)
  max 0 (revenues.getLastD 0 + calculate_trend revenues * (projection_days : ℚ))

/-- Rounding a zero value gives zero, for any digit count. -/
theorem pyRound_zero (n : ℕ) : pyRound n 0 = 0 := by
  simp [pyRound, roundHalfEven]

/-- C1 (amended): every derived metric of `calculate_campaign_performance`
resolves a zero denominator to 0 (impressions guard for ctr/cpm, clicks guard
for cvr/cpc, conversions guard for cost_per_acquisition, spend guard for
roas, revenue guard for profit_margin), and `calculate_roi` with nonzero cost
is finite; but with cost = 0 the code returns `float('inf')` as soon as the
revenue is positive, and 0 only when the revenue is not positive. -/
theorem zero_denominator_guards (pd : PerformanceData) (revenue cost : ℚ) :
    (pd.total_impressions = 0 →
      (calculate_campaign_performance pd).ctr_percent = 0 ∧
      (calculate_campaign_performance pd).cpm = 0) ∧
    (pd.total_clicks = 0 →
      (calculate_campaign_performance pd).cvr_percent = 0 ∧
      (calculate_campaign_performance pd).cpc = 0) ∧
    (pd.total_conversions = 0 →
      (calculate_campaign_performance pd).cost_per_acquisition = 0) ∧
    (pd.total_spend = 0 → (calculate_campaign_performance pd).roas = 0) ∧
    (pd.total_revenue = 0 →
      (calculate_campaign_performance pd).profit_margin_percent = 0) ∧
    (cost = 0 → revenue ≤ 0 → calculate_roi revenue cost = RoiResult.finite 0) ∧
    (cost = 0 → 0 < revenue → calculate_roi revenue cost = RoiResult.infinity) ∧
    (cost ≠ 0 →
      calculate_roi revenue cost = RoiResult.finite ((revenue - cost) / cost * 100)) := by
  refine ⟨fun h => ⟨?_, ?_⟩, fun h => ⟨?_, ?_⟩, fun h => ?_, fun h => ?_, fun h => ?_,
    fun hc hr => ?_, fun hc hr => ?_, fun hc => ?_⟩
  · simp [calculate_campaign_performance, h, pyRound_zero]
  · simp [calculate_campaign_performance, h, pyRound_zero]
  · simp [calculate_campaign_performance, h, pyRound_zero]
  · simp [calculate_campaign_performance, h, pyRound_zero]
  · simp [calculate_campaign_performance, h, pyRound_zero]
  · simp [calculate_campaign_performance, h, pyRound_zero]
  · simp [calculate_campaign_performance, h, pyRound_zero]
  · simp [calculate_roi, hc, not_lt.mpr hr]
  · simp [calculate_roi, hc, hr]
  · simp [calculate_roi, hc]

/-- C1 witness: concrete instances of every guard clause and of the three
roi cases. -/
theorem zero_denominator_guards_witness :
    ((calculate_campaign_performance ⟨0, 0, 0, 10, 5, []⟩).ctr_percent = 0 ∧
      (calculate_campaign_performance ⟨0, 0, 0, 10, 5, []⟩).cpm = 0) ∧
    ((calculate_campaign_performance ⟨0, 0, 0, 10, 5, []⟩).cvr_percent = 0 ∧
      (calculate_campaign_performance ⟨0, 0, 0, 10, 5, []⟩).cpc = 0) ∧
    (calculate_campaign_performance ⟨0, 0, 0, 10, 5, []⟩).cost_per_acquisition = 0 ∧
    (calculate_campaign_performance ⟨10, 5, 1, 0, 0, []⟩).roas = 0 ∧
    (calculate_campaign_performance ⟨10, 5, 1, 0, 0, []⟩).profit_margin_percent = 0 ∧
    calculate_roi (-3) 0 = RoiResult.finite 0 ∧
    calculate_roi 1 0 = RoiResult.infinity ∧
    calculate_roi 300 200 = RoiResult.finite ((300 - 200) / 200 * 100) :=
  ⟨(zero_denominator_guards ⟨0, 0, 0, 10, 5, []⟩ 0 0).1 rfl,
   (zero_denominator_guards ⟨0, 0, 0, 10, 5, []⟩ 0 0).2.1 rfl,
   (zero_denominator_guards ⟨0, 0, 0, 10, 5, []⟩ 0 0).2.2.1 rfl,
   (zero_denominator_guards ⟨10, 5, 1, 0, 0, []⟩ 0 0).2.2.2.1 rfl,
   (zero_denominator_guards ⟨10, 5, 1, 0, 0, []⟩ 0 0).2.2.2.2.1 rfl,
   (zero_denominator_guards ⟨10, 5, 1, 0, 0, []⟩ (-3) 0).2.2.2.2.2.1 rfl (by norm_num),
   (zero_denominator_guards ⟨10, 5, 1, 0, 0, []⟩ 1 0).2.2.2.2.2.2.1 rfl (by norm_num),
   (zero_denominator_guards ⟨10, 5, 1, 0, 0, []⟩ 300 200).2.2.2.2.2.2.2 (by norm_num)⟩

/-- C1 counterexample: `calculate_roi` with revenue 1 and cost 0 returns
`float('inf')`, not a finite number, refuting "never Infinity". -/
theorem roi_zero_cost_is_infinite :
    calculate_roi 1 0 = RoiResult.infinity ∧
    RoiResult.infinity ≠ RoiResult.finite 0 := by
  constructor
  · norm_num [calculate_roi]
  · intro h
    exact RoiResult.noConfusion h

/-- C4: the §4.2 zero-denominator guards of `calculate_campaign_performance`
(impressions, clicks and conversions guards), and the end-to-end values on
the totals impressions 3000, clicks 130, conversions 13, spend 250,
revenue 1200. -/
theorem campaign_performance_formulas (pd : PerformanceData) :
    (pd.total_impressions = 0 →
      (calculate_campaign_performance pd).ctr_percent = 0 ∧
      (calculate_campaign_performance pd).cpm = 0) ∧
    (pd.total_clicks = 0 →
      (calculate_campaign_performance pd).cvr_percent = 0 ∧
      (calculate_campaign_performance pd).cpc = 0) ∧
    (pd.total_conversions = 0 →
      (calculate_campaign_performance pd).cost_per_acquisition = 0) ∧
    (|(calculate_campaign_performance ⟨3000, 130, 13, 250, 1200, []⟩).ctr_percent
        - 433 / 100| ≤ 1 / 100 ∧
      (calculate_campaign_performance ⟨3000, 130, 13, 250, 1200, []⟩).roas = 24 / 5 ∧
      (calculate_campaign_performance ⟨3000, 130, 13, 250, 1200, []⟩).profit = 950) := by
  refine ⟨fun h => ⟨?_, ?_⟩, fun h => ⟨?_, ?_⟩, fun h => ?_, ⟨?_, ?_, ?_⟩⟩
  · simp [calculate_campaign_performance, h, pyRound_zero]
  · simp [calculate_campaign_performance, h, pyRound_zero]
  · simp [calculate_campaign_performance, h, pyRound_zero]
  · simp [calculate_campaign_performance, h, pyRound_zero]
  · simp [calculate_campaign_performance, h, pyRound_zero]
  · have : (calculate_campaign_performance ⟨3000, 130, 13, 250, 1200, []⟩).ctr_percent
        = 433 / 100 := by
      norm_num [calculate_campaign_performance, pyRound, roundHalfEven]
    rw [this]
    norm_num
  · norm_num [calculate_campaign_performance, pyRound, roundHalfEven]
  · norm_num [calculate_campaign_performance, pyRound, roundHalfEven]

/-- C4 witness: the guards at all-zero totals, and the end-to-end roas. -/
theorem campaign_performance_formulas_witness :
    ((calculate_campaign_performance ⟨0, 0, 0, 0, 0, []⟩).ctr_percent = 0 ∧
      (calculate_campaign_performance ⟨0, 0, 0, 0, 0, []⟩).cpm = 0) ∧
    ((calculate_campaign_performance ⟨0, 0, 0, 0, 0, []⟩).cvr_percent = 0 ∧
      (calculate_campaign_performance ⟨0, 0, 0, 0, 0, []⟩).cpc = 0) ∧
    (calculate_campaign_performance ⟨0, 0, 0, 0, 0, []⟩).cost_per_acquisition = 0 ∧
    (calculate_campaign_performance ⟨3000, 130, 13, 250, 1200, []⟩).roas = 24 / 5 :=
  ⟨(campaign_performance_formulas ⟨0, 0, 0, 0, 0, []⟩).1 rfl,
   (campaign_performance_formulas ⟨0, 0, 0, 0, 0, []⟩).2.1 rfl,
   (campaign_performance_formulas ⟨0, 0, 0, 0, 0, []⟩).2.2.1 rfl,
   (campaign_performance_formulas ⟨0, 0, 0, 0, 0, []⟩).2.2.2.2.1⟩

/-- The sum of a list all of whose elements equal `x` is the length times `x`. -/
theorem sum_const_list (l : List ℚ) (x : ℚ) (h : ∀ y ∈ l, y = x) :
    l.sum = (l.length : ℚ) * x := by
  induction l with
  | nil => simp
  | cons a l ih =>
    have ha : a = x := h a (List.mem_cons_self a l)
    have hl : ∀ y ∈ l, y = x := fun y hy => h y (List.mem_cons_of_mem _ hy)
    rw [List.sum_cons, ih hl, ha, List.length_cons]
    push_cast
    ring

/-- The mean of a non-empty constant list is its constant value. -/
theorem mean_const_list (l : List ℚ) (x : ℚ) (h : ∀ y ∈ l, y = x)
    (hne : l.length ≠ 0) : mean l = x := by
  rw [mean, sum_const_list l x h]
  have hcast : (l.length : ℚ) ≠ 0 := Nat.cast_ne_zero.mpr hne
  field_simp

/-- On a constant sequence every regression residual vanishes, so the OLS
slope computed by `calculate_trend` is exactly 0. -/
theorem calculate_trend_constant (l : List ℚ) (x : ℚ) (h : ∀ y ∈ l, y = x) :
    calculate_trend l = 0 := by
  by_cases hlen : l.length < 2
  · simp [calculate_trend, hlen]
  · have hne : l.length ≠ 0 := by omega
    have hnum : ((List.range l.length).map
        (fun i => ((Nat.cast i : ℚ)
          - mean ((List.range l.length).map (fun i => (Nat.cast i : ℚ))))
          * ((l[i]?).getD 0 - mean l))).sum = 0 := by
      apply List.sum_eq_zero
      intro y hy
      obtain ⟨i, hi, rfl⟩ := List.mem_map.mp hy
      have hilt : i < l.length := List.mem_range.mp hi
      have hgd : (l[i]?).getD 0 = x := by
        rw [List.getElem?_eq_getElem hilt, Option.getD_some]
        exact h _ (List.getElem_mem hilt)
      rw [hgd, mean_const_list l x h hne, sub_self, mul_zero]
    simp [calculate_trend, hlen, hnum]

/-- C5: `calculate_trend` is exactly 0 on every constant sequence (in
particular on `[5,5,5,5]`) and exactly 1 on `[1,2,3,4,5]`; and on every
sequence of fewer than two elements both `calculate_variance` and
`calculate_trend` return 0. -/
theorem trend_and_short_sequences :
    (∀ (l : List ℚ) (x : ℚ), (∀ y ∈ l, y = x) → calculate_trend l = 0) ∧
    calculate_trend ([5, 5, 5, 5] : List ℚ) = 0 ∧
    calculate_trend ([1, 2, 3, 4, 5] : List ℚ) = 1 ∧
    ∀ l : List ℚ, l.length < 2 → calculate_variance l = 0 ∧ calculate_trend l = 0 := by
  refine ⟨fun l x h => calculate_trend_constant l x h, ?_, ?_, fun l h => ⟨?_, ?_⟩⟩
  · norm_num [calculate_trend, mean, List.range_succ]
  · norm_num [calculate_trend, mean, List.range_succ]
  · simp [calculate_variance, h]
  · simp [calculate_trend, h]

/-- C5 witness: the constant list `[7,7,7]` and the degenerate singleton. -/
theorem trend_and_short_sequences_witness :
    (∀ y ∈ ([7, 7, 7] : List ℚ), y = 7) ∧
    calculate_trend ([7, 7, 7] : List ℚ) = 0 ∧
    ([3] : List ℚ).length < 2 ∧
    (calculate_variance ([3] : List ℚ) = 0 ∧ calculate_trend ([3] : List ℚ) = 0) :=
  ⟨by simp, trend_and_short_sequences.1 [7, 7, 7] 7 (by simp),
   by norm_num, trend_and_short_sequences.2.2.2 [3] (by norm_num)⟩

/-- C6: on a non-empty history `calculate_projected_performance` projects
`max 0 (last value + trend × projection_days)` for revenue and spend and
clamps the confidence into `[0, 100]`; on an empty history, projected revenue,
projected spend and the `confidence` value are all 0; and on the history with
revenues `[200, 150, 100]` (trend −50, last value 100) and 10 projection days
the projected revenue clamps to 0, not −400. -/
theorem forecast_projection_clamps (hd : List DailyMetric) (days : ℤ) :
    (hd ≠ [] →
      (calculate_projected_performance hd days).projected_revenue
        = max 0 ((hd.map (fun d => d.revenue)).getLastD 0
            + calculate_trend (hd.map (fun d => d.revenue)) * (days : ℚ)) ∧
      (calculate_projected_performance hd days).projected_spend
        = max 0 ((hd.map (fun d => d.spend)).getLastD 0
            + calculate_trend (hd.map (fun d => d.spend)) * (days : ℚ)) ∧
      ∃ c, (calculate_projected_performance hd days).confidence_percent = some c ∧
        0 ≤ c ∧ c ≤ 100) ∧
    (hd = [] →
      (calculate_projected_performance hd days).projected_revenue = 0 ∧
      (calculate_projected_performance hd days).projected_spend = 0 ∧
      (calculate_projected_performance hd days).confidence = some 0) ∧
    (calculate_projected_performance
      [⟨0, 0, 200⟩, ⟨0, 0, 150⟩, ⟨0, 0, 100⟩] 10).projected_revenue = 0 := by
  refine ⟨fun hne => ⟨?_, ?_, ?_⟩, fun he => ?_, ?_⟩
  · simp [calculate_projected_performance, hne]
  · simp [calculate_projected_performance, hne]
  · refine ⟨min 100 (max 0 (100 - calculate_variance (hd.map (fun d => d.revenue))
      / max (mean (hd.map (fun d => d.revenue))) 1 * 100)), ?_, ?_, ?_⟩
    · simp [calculate_projected_performance, hne]
    · exact le_min (by norm_num) (le_max_left _ _)
    · exact min_le_left _ _
  · subst he
    simp [calculate_projected_performance]
  · rw [calculate_projected_performance, if_neg (by simp)]
    norm_num [calculate_trend, mean, List.range_succ]

/-- C6 witness: the three-day history with revenues `[200, 150, 100]` is
non-empty, and the projection formula instance the theorem yields for it. -/
theorem forecast_projection_clamps_witness :
    ([⟨0, 0, 200⟩, ⟨0, 0, 150⟩, ⟨0, 0, 100⟩] : List DailyMetric) ≠ [] ∧
    (calculate_projected_performance
        [⟨0, 0, 200⟩, ⟨0, 0, 150⟩, ⟨0, 0, 100⟩] 10).projected_revenue
      = max 0 ((([⟨0, 0, 200⟩, ⟨0, 0, 150⟩, ⟨0, 0, 100⟩] : List DailyMetric).map
            (fun d => d.revenue)).getLastD 0
          + calculate_trend ((([⟨0, 0, 200⟩, ⟨0, 0, 150⟩, ⟨0, 0, 100⟩] :
              List DailyMetric)).map (fun d => d.revenue)) * ((10 : ℤ) : ℚ)) :=
  ⟨by simp,
   ((forecast_projection_clamps [⟨0, 0, 200⟩, ⟨0, 0, 150⟩, ⟨0, 0, 100⟩] 10).1
      (by simp)).1⟩

/-- C7 (amended): a negative `projection_days` is not treated as 0 — the
projection extrapolates backwards along the same formula
`max(0, last + trend × days)`; only the projected values themselves are
clamped to be nonnegative. -/
theorem negative_projection_days_extrapolate (hd : List DailyMetric) (days : ℤ)
    (_hneg : days < 0) (hne : hd ≠ []) :
    (calculate_projected_performance hd days).projected_revenue
      = max 0 ((hd.map (fun d => d.revenue)).getLastD 0
          + calculate_trend (hd.map (fun d => d.revenue)) * (days : ℚ)) ∧
    0 ≤ (calculate_projected_performance hd days).projected_revenue ∧
    0 ≤ (calculate_projected_performance hd days).projected_spend := by
  refine ⟨?_, ?_, ?_⟩ <;> simp [calculate_projected_performance, hne]

/-- C7 witness: the backwards extrapolation at the revenue history
`[200, 150, 100]` with projection_days −10. -/
theorem negative_projection_days_extrapolate_witness :
    ((-10 : ℤ) < 0 ∧ ([⟨0, 0, 200⟩, ⟨0, 0, 150⟩, ⟨0, 0, 100⟩] : List DailyMetric) ≠ []) ∧
    (calculate_projected_performance
        [⟨0, 0, 200⟩, ⟨0, 0, 150⟩, ⟨0, 0, 100⟩] (-10)).projected_revenue
      = max 0 ((([⟨0, 0, 200⟩, ⟨0, 0, 150⟩, ⟨0, 0, 100⟩] : List DailyMetric).map
            (fun d => d.revenue)).getLastD 0
          + calculate_trend ((([⟨0, 0, 200⟩, ⟨0, 0, 150⟩, ⟨0, 0, 100⟩] :
              List DailyMetric)).map (fun d => d.revenue)) * ((-10 : ℤ) : ℚ)) :=
  ⟨⟨by norm_num, by simp⟩,
   (negative_projection_days_extrapolate [⟨0, 0, 200⟩, ⟨0, 0, 150⟩, ⟨0, 0, 100⟩]
      (-10) (by norm_num) (by simp)).1⟩

/-- C7 counterexample: on the revenue history `[200, 150, 100]`,
projection_days −10 yields projected revenue 600, while projection_days 0
yields 100 — the two reports differ, so negative days are not treated as 0. -/
theorem negative_projection_days_counterexample :
    (calculate_projected_performance
        [⟨0, 0, 200⟩, ⟨0, 0, 150⟩, ⟨0, 0, 100⟩] (-10)).projected_revenue = 600 ∧
    (calculate_projected_performance
        [⟨0, 0, 200⟩, ⟨0, 0, 150⟩, ⟨0, 0, 100⟩] 0).projected_revenue = 100 ∧
    (600 : ℚ) ≠ 100 := by
  refine ⟨?_, ?_, by norm_num⟩ <;>
    · rw [calculate_projected_performance, if_neg (by simp)]
      norm_num [calculate_trend, mean, List.range_succ]

/-- C8 (amended): the aggregation step of `get_campaign_performance` returns
all-zero totals and an empty `daily_metrics` list on an empty metrics
collection; on a non-empty collection each total satisfies the sum
recurrence, and the sample count is recoverable only as the length of
`daily_metrics` — the returned dict carries no `sample_count` key. -/
theorem aggregation_totals (cid cname : String) (m : AdMetricsRow)
    (ms : List AdMetricsRow) :
    ((get_campaign_performance cid cname []).total_impressions = 0 ∧
      (get_campaign_performance cid cname []).total_clicks = 0 ∧
      (get_campaign_performance cid cname []).total_conversions = 0 ∧
      (get_campaign_performance cid cname []).total_spend = 0 ∧
      (get_campaign_performance cid cname []).total_revenue = 0 ∧
      (get_campaign_performance cid cname []).daily_metrics = []) ∧
    ((get_campaign_performance cid cname (m :: ms)).total_impressions
        = m.impressions + (get_campaign_performance cid cname ms).total_impressions ∧
      (get_campaign_performance cid cname (m :: ms)).total_clicks
        = m.clicks + (get_campaign_performance cid cname ms).total_clicks ∧
      (get_campaign_performance cid cname (m :: ms)).total_conversions
        = m.conversions + (get_campaign_performance cid cname ms).total_conversions ∧
      (get_campaign_performance cid cname (m :: ms)).total_spend
        = m.spend + (get_campaign_performance cid cname ms).total_spend ∧
      (get_campaign_performance cid cname (m :: ms)).total_revenue
        = m.revenue + (get_campaign_performance cid cname ms).total_revenue) ∧
    (get_campaign_performance cid cname ms).daily_metrics.length = ms.length ∧
    "sample_count" ∉ get_campaign_performance_keys := by
  refine ⟨⟨?_, ?_, ?_, ?_, ?_, ?_⟩, ⟨?_, ?_, ?_, ?_, ?_⟩, ?_, ?_⟩ <;>
    simp [get_campaign_performance, get_campaign_performance_keys]

/-- C8 counterexample: the dict returned by `get_campaign_performance` has no
`sample_count` key, refuting "together with a sample_count field". -/
theorem no_sample_count_key :
    "sample_count" ∉ get_campaign_performance_keys := by
  simp [get_campaign_performance_keys]

/-- C9 (amended): `projected_monthly_revenue` is the 30-day extrapolation of
the daily average of the total revenue over the elapsed days
(`total_revenue / len(daily_metrics) * 30`, rounded to 2 digits), 0 when
there are no daily metrics — not the §4.5 trend-slope forecast. -/
theorem projected_monthly_revenue_formula (pd : PerformanceData) :
    (pd.daily_metrics = [] →
      (calculate_campaign_performance pd).projected_monthly_revenue = 0) ∧
    (pd.daily_metrics ≠ [] →
      (calculate_campaign_performance pd).projected_monthly_revenue
        = pyRound 2 (pd.total_revenue / (pd.daily_metrics.length : ℚ) * 30)) := by
  constructor
  · intro h
    simp [calculate_campaign_performance, project_monthly_performance, h, pyRound_zero]
  · intro h
    have hlen : pd.daily_metrics.length ≠ 0 := fun hl => h (List.length_eq_zero.mp hl)
    simp [calculate_campaign_performance, project_monthly_performance, hlen]

/-- C9 witness: a one-day history with total revenue 60 projects
`60 / 1 * 30`, rounded. -/
theorem projected_monthly_revenue_formula_witness :
    ([⟨1, 2, 3⟩] : List DailyMetric) ≠ [] ∧
    (calculate_campaign_performance ⟨0, 0, 0, 0, 60, [⟨1, 2, 3⟩]⟩).projected_monthly_revenue
      = pyRound 2 ((60 : ℚ) / ((([⟨1, 2, 3⟩] : List DailyMetric).length : ℕ) : ℚ) * 30) :=
  ⟨by simp,
   (projected_monthly_revenue_formula ⟨0, 0, 0, 0, 60, [⟨1, 2, 3⟩]⟩).2 (by simp)⟩

/-- C9 counterexample: on totals revenue 1200 with the two spec sample days
(daily revenues 500 and 700), the code produces 18000 (daily-average
extrapolation), while the §4.5 formula on the revenue series gives 6700 —
the field is not computed by the §4.5 formula. -/
theorem projected_monthly_revenue_counterexample :
    (calculate_campaign_performance
        ⟨3000, 130, 13, 250, 1200,
          [⟨1000, 100, 500⟩, ⟨2000, 150, 700⟩]⟩).projected_monthly_revenue = 18000 ∧
    pyRound 2 (spec_monthly_revenue_forecast
        ⟨3000, 130, 13, 250, 1200,
          [⟨1000, 100, 500⟩, ⟨2000, 150, 700⟩]⟩ 30) = 6700 ∧
    (18000 : ℚ) ≠ 6700 := by
  refine ⟨?_, ?_, by norm_num⟩
  · norm_num [calculate_campaign_performance, project_monthly_performance,
      pyRound, roundHalfEven]
  · norm_num [spec_monthly_revenue_forecast, calculate_trend, mean,
      List.range_succ, pyRound, roundHalfEven]

/-- Unfolding of `calculate_statistical_significance` on the main branch,
where both samples have at least two elements and the standard error is
nonzero. -/
theorem significance_main_branch (c t : List ℝ)
    (hlen : ¬(c.length < 2 ∨ t.length < 2)) (hse : standard_error c t ≠ 0) :
    calculate_statistical_significance c t =
      { p_value := 2 * (1 - |(mean t - mean c) / standard_error c t| /
          (|(mean t - mean c) / standard_error c t| +
            Real.sqrt ((c.length : ℝ) + (t.length : ℝ) - 2)))
        significant := 2 * (1 - |(mean t - mean c) / standard_error c t| /
          (|(mean t - mean c) / standard_error c t| +
            Real.sqrt ((c.length : ℝ) + (t.length : ℝ) - 2))) < 0.05
        confidence_interval :=
          ((mean t - mean c) - 1.96 * standard_error c t,
           (mean t - mean c) + 1.96 * standard_error c t)
        effect_size := some (mean t - mean c) } := by
  rw [calculate_statistical_significance]
  rw [if_neg hlen, if_neg hse]

/-- C3 (amended): on either degenerate path — a sample with fewer than two
elements, or a zero standard error — the function returns
`{p_value: 1.0, significant: false, confidence_interval: [0, 0]}` without
raising, but the returned dict has no `effect_size` key. -/
theorem degenerate_significance (c t : List ℝ)
    (h : c.length < 2 ∨ t.length < 2 ∨ standard_error c t = 0) :
    (calculate_statistical_significance c t).p_value = 1 ∧
    ((calculate_statistical_significance c t).significant ↔ False) ∧
    (calculate_statistical_significance c t).confidence_interval = (0, 0) ∧
    (calculate_statistical_significance c t).effect_size = none := by
  rw [calculate_statistical_significance]
  by_cases hlen : c.length < 2 ∨ t.length < 2
  · rw [if_pos hlen]
    simp
  · have hse : standard_error c t = 0 := by
      rcases h with h | h | h
      · exact absurd (Or.inl h) hlen
      · exact absurd (Or.inr h) hlen
      · exact h
    rw [if_neg hlen, if_pos hse]
    simp

/-- C3 witness: both samples empty take the insufficient-data path. -/
theorem degenerate_significance_witness :
    (([] : List ℝ).length < 2 ∨ ([] : List ℝ).length < 2 ∨
      standard_error [] [] = 0) ∧
    ((calculate_statistical_significance ([] : List ℝ) []).p_value = 1 ∧
      ((calculate_statistical_significance ([] : List ℝ) []).significant ↔ False) ∧
      (calculate_statistical_significance ([] : List ℝ) []).confidence_interval = (0, 0) ∧
      (calculate_statistical_significance ([] : List ℝ) []).effect_size = none) :=
  ⟨Or.inl (by norm_num), degenerate_significance [] [] (Or.inl (by norm_num))⟩

/-- C3 counterexample: on empty samples the degenerate return carries no
`effect_size` key, refuting "including the effect_size field ... 0". -/
theorem degenerate_significance_missing_effect_size :
    (calculate_statistical_significance ([] : List ℝ) []).effect_size = none ∧
    (none : Option ℝ) ≠ some 0 := by
  constructor
  · rw [calculate_statistical_significance, if_pos (Or.inl (by norm_num))]
  · simp

/-- C2 (amended): for every pair of input samples the p_value lies in the
half-open interval (0, 2] — it can exceed 1, up to 2 when the sample means
coincide — and the significant flag holds exactly when p_value < 0.05. -/
theorem p_value_range (c t : List ℝ) :
    0 < (calculate_statistical_significance c t).p_value ∧
    (calculate_statistical_significance c t).p_value ≤ 2 ∧
    ((calculate_statistical_significance c t).significant ↔
      (calculate_statistical_significance c t).p_value < 0.05) := by
  by_cases hlen : c.length < 2 ∨ t.length < 2
  · rw [calculate_statistical_significance, if_pos hlen]
    norm_num
  · by_cases hse : standard_error c t = 0
    · rw [calculate_statistical_significance, if_neg hlen, if_pos hse]
      norm_num
    · rw [significance_main_branch c t hlen hse]
      have hu : 0 ≤ |(mean t - mean c) / standard_error c t| := abs_nonneg _
      have hk : 0 < Real.sqrt ((c.length : ℝ) + (t.length : ℝ) - 2) := by
        apply Real.sqrt_pos.mpr
        push_neg at hlen
        have h1 : (2 : ℝ) ≤ (c.length : ℝ) := by exact_mod_cast hlen.1
        have h2 : (2 : ℝ) ≤ (t.length : ℝ) := by exact_mod_cast hlen.2
        linarith
      have hq1 : |(mean t - mean c) / standard_error c t| /
          (|(mean t - mean c) / standard_error c t| +
            Real.sqrt ((c.length : ℝ) + (t.length : ℝ) - 2)) < 1 :=
        (div_lt_one (by linarith)).mpr (by linarith)
      have hq0 : 0 ≤ |(mean t - mean c) / standard_error c t| /
          (|(mean t - mean c) / standard_error c t| +
            Real.sqrt ((c.length : ℝ) + (t.length : ℝ) - 2)) :=
        div_nonneg hu (by linarith)
      refine ⟨by simp only []; linarith, by simp only []; linarith, Iff.rfl⟩

/-- C2 counterexample: on the equal samples `[1, 2]` and `[1, 2]` the means
agree, the t statistic is 0, and the p_value evaluates to 2 — outside the
claimed interval [0, 1]. -/
theorem p_value_two_at_equal_means :
    (calculate_statistical_significance ([1, 2] : List ℝ) [1, 2]).p_value = 2 ∧
    ¬((calculate_statistical_significance ([1, 2] : List ℝ) [1, 2]).p_value ≤ 1) := by
  have hstd : stdev [1, 2] = Real.sqrt (1 / 2) := by
    norm_num [stdev, mean]
  have hse : standard_error [1, 2] [1, 2] = Real.sqrt (1 / 2) := by
    rw [standard_error]
    norm_num [hstd, Real.sq_sqrt]
  have hne : standard_error ([1, 2] : List ℝ) [1, 2] ≠ 0 := by
    rw [hse]
    exact (Real.sqrt_pos.mpr (by norm_num)).ne'
  have hlen : ¬(([1, 2] : List ℝ).length < 2 ∨ ([1, 2] : List ℝ).length < 2) := by
    norm_num
  rw [significance_main_branch _ _ hlen hne]
  norm_num

/-- C10: swapping the control and the test samples on the main branch negates
the effect size, reflects the confidence interval, and preserves both the
p_value and the significant flag. -/
theorem swap_significance (c t : List ℝ) (hc : 2 ≤ c.length) (ht : 2 ≤ t.length)
    (hse : standard_error c t ≠ 0) :
    (calculate_statistical_significance t c).effect_size
      = (calculate_statistical_significance c t).effect_size.map (fun x => -x) ∧
    (calculate_statistical_significance t c).confidence_interval
      = (-(calculate_statistical_significance c t).confidence_interval.2,
         -(calculate_statistical_significance c t).confidence_interval.1) ∧
    (calculate_statistical_significance t c).p_value
      = (calculate_statistical_significance c t).p_value ∧
    ((calculate_statistical_significance t c).significant ↔
      (calculate_statistical_significance c t).significant) := by
  have hse_comm : standard_error t c = standard_error c t := by
    rw [standard_error, standard_error, add_comm]
  have hlen_ct : ¬(c.length < 2 ∨ t.length < 2) := by
    push_neg
    exact ⟨hc, ht⟩
  have hlen_tc : ¬(t.length < 2 ∨ c.length < 2) := by
    push_neg
    exact ⟨ht, hc⟩
  have hse' : standard_error t c ≠ 0 := by
    rw [hse_comm]
    exact hse
  rw [significance_main_branch c t hlen_ct hse,
      significance_main_branch t c hlen_tc hse']
  have habs : |(mean c - mean t) / standard_error t c|
      = |(mean t - mean c) / standard_error c t| := by
    rw [hse_comm, show mean c - mean t = -(mean t - mean c) by ring, neg_div, abs_neg]
  have hsqrt : Real.sqrt ((t.length : ℝ) + (c.length : ℝ) - 2)
      = Real.sqrt ((c.length : ℝ) + (t.length : ℝ) - 2) := by
    rw [show (t.length : ℝ) + (c.length : ℝ) - 2
      = (c.length : ℝ) + (t.length : ℝ) - 2 by ring]
  refine ⟨?_, ?_, ?_, ?_⟩
  · rw [show mean c - mean t = -(mean t - mean c) by ring]
    simp
  · simp only [hse_comm]
    rw [Prod.mk.injEq]
    constructor <;> ring
  · simp only [habs, hsqrt]
  · simp only [habs, hsqrt]

/-- C10 witness: the samples `[0, 2]` and `[1, 3]` have two elements each and
standard error √2 ≠ 0; the p_value is invariant under swapping them. -/
theorem swap_significance_witness :
    (2 ≤ ([0, 2] : List ℝ).length ∧ 2 ≤ ([1, 3] : List ℝ).length ∧
      standard_error ([0, 2] : List ℝ) [1, 3] ≠ 0) ∧
    (calculate_statistical_significance ([1, 3] : List ℝ) [0, 2]).p_value
      = (calculate_statistical_significance ([0, 2] : List ℝ) [1, 3]).p_value := by
  have h1 : stdev [0, 2] = Real.sqrt 2 := by
    norm_num [stdev, mean]
  have h2 : stdev [1, 3] = Real.sqrt 2 := by
    norm_num [stdev, mean]
  have hse : standard_error ([0, 2] : List ℝ) [1, 3] = Real.sqrt 2 := by
    rw [standard_error]
    norm_num [h1, h2, Real.sq_sqrt]
  have hne : standard_error ([0, 2] : List ℝ) [1, 3] ≠ 0 := by
    rw [hse]
    exact (Real.sqrt_pos.mpr (by norm_num)).ne'
  exact ⟨⟨by norm_num, by norm_num, hne⟩,
    (swap_significance [0, 2] [1, 3] (by norm_num) (by norm_num) hne).2.2.1⟩

end StreamRec
